import Mathlib

set_option maxRecDepth 100000
set_option maxHeartbeats 2000000

set_option allowUnsafeReducibility true in
attribute [semireducible] Rat.add Rat.mul Rat.inv Rat.sub

deriving instance DecidableEq for Except

/-!
Verification development for the GHEtool borefield sizing and
temperature-simulation engine.

The repository ships only example and validation scripts
(`Examples/main_functionalities.py`, `Examples/effect_of_borehole_configuration.py`,
`Validation/cases.py`, `Validation/speed_comparison.py`); the core `Borefield`
engine they call is not part of the checked sources.  Consequently the engine
itself is modelled here from the specification (data model section 3,
component design section 4, error design section 7), faithful to the spec's
words, with the caller scripts fixing the call surface
(`size`, `set_ground_parameters`, `create_custom_dataset`,
`set_custom_gfunction`, `imbalance`, the `GroundData`/`FluidData`/`PipeData`
constructor shapes).  All arithmetic is over `ℚ` so that every definition is
executable and every concrete run can be checked by `decide`.
-/

namespace GHEtool

/-- Modelled from the spec (section 3, GFunctionDataset): a g-function table is a
sequence of (time, response-value) pairs with strictly increasing times. -/
abbrev GFunc := List (ℚ × ℚ)

/-- Modelled from the spec (section 3, GroundParameters) and the `GroundData`
constructor used by the example scripts: depth reference, borehole spacing,
ground conductivity, undisturbed ground temperature, baseline equivalent
borehole resistance, field width count, field length count. -/
structure GroundData where
  H : ℚ
  B : ℚ
  k_s : ℚ
  Tg : ℚ
  Rb : ℚ
  N_1 : ℕ
  N_2 : ℕ
deriving DecidableEq

/-- Modelled from the spec (section 3, ResistanceSpec) and the `FluidData`
constructor of the example scripts: mass flow rate, fluid conductivity,
density, specific heat, viscosity. -/
structure FluidData where
  mfr : ℚ
  k_f : ℚ
  rho : ℚ
  Cp : ℚ
  mu : ℚ
deriving DecidableEq

/-- Modelled from the spec (section 3, ResistanceSpec) and the `PipeData`
constructor of the example scripts: grout conductivity, inner and outer pipe
radius, pipe conductivity, shank spacing, borehole radius, number of pipes. -/
structure PipeData where
  k_g : ℚ
  r_in : ℚ
  r_out : ℚ
  k_p : ℚ
  D_s : ℚ
  r_b : ℚ
  nPipes : ℚ
deriving DecidableEq

/-- Modelled from the spec (section 7): the error taxonomy surfaced by `size`. -/
inductive SizingError where
  | configurationError
  | unsupportedGeometryError
  | outOfRangeError
  | sizingDidNotConvergeError
deriving DecidableEq

/-- Modelled from the spec (sections 4.4 and 6): the two sizing strategies. -/
inductive Strategy where
  | L2
  | L3
deriving DecidableEq

/-- Modelled from the spec (section 4.4, quadrant search): the four candidate
limiting scenarios (year, bound direction). -/
inductive Quadrant where
  | firstHeating
  | firstCooling
  | lastHeating
  | lastCooling
deriving DecidableEq

/-- Modelled from the spec (section 3, ownership paragraph): the Borefield
aggregate owns its ground parameters, monthly load profile, temperature
bounds, current depth, current equivalent resistance, the custom-dataset
selection state and the per-aggregate custom dataset registry, plus optional
fluid and pipe data for dynamic resistance. -/
structure Borefield where
  simulationPeriod : ℕ
  peakHeating : List ℚ
  peakCooling : List ℚ
  baseloadHeating : List ℚ
  baseloadCooling : List ℚ
  ground : GroundData
  Tmax : ℚ
  Tmin : ℚ
  H : ℚ
  Rb : ℚ
  useCustom : Bool
  customName : String
  customStore : List (String × GFunc)
  fluid : Option FluidData
  pipe : Option PipeData
deriving DecidableEq

/-- Mirrors `borefield.set_ground_parameters(data)` from the example scripts:
installs the ground record and initialises the current depth and the current
equivalent resistance from it. -/
def setGroundParameters (b : Borefield) (g : GroundData) : Borefield :=
  { b with ground := g, H := g.H, Rb := g.Rb }

/-- Mirrors `borefield.set_max_ground_temperature(t)`. -/
def setMaxGroundTemperature (b : Borefield) (t : ℚ) : Borefield :=
  { b with Tmax := t }

/-- Mirrors `borefield.set_min_ground_temperature(t)`. -/
def setMinGroundTemperature (b : Borefield) (t : ℚ) : Borefield :=
  { b with Tmin := t }

/-- Mirrors `borefield.create_custom_dataset(field, name)`: registers an
externally computed g-function table under a name (spec section 6). -/
def createCustomDataset (b : Borefield) (g : GFunc) (name : String) : Borefield :=
  { b with customStore := (name, g) :: b.customStore }

/-- Mirrors `borefield.set_custom_gfunction(name)`: selects the custom dataset
mode with the given name for subsequent response lookups (spec section 4.1). -/
def setCustomGfunction (b : Borefield) (name : String) : Borefield :=
  { b with useCustom := true, customName := name }

/-- Rational stand-in for the constant 2*pi of the spec's superposition formula
(section 4.3); its exact value only scales temperatures by a fixed positive
factor. -/
def twoPi : ℚ := 157 / 25

/-- Modelled from the spec (section 4.3): duration, in months, of the peak-power
step superimposed on the base load (six hours of a 730-hour month). -/
def tPeak : ℚ := 3 / 365

/-- Modelled from the spec (section 4.4): convergence tolerance on depth. -/
def convergenceTol : ℚ := 1 / 100

/-- Modelled from the spec (section 4.4): hard iteration cap of the coupled
depth/resistance fixed-point loop. -/
def iterCap : ℕ := 40

/-- Sum of a list of rationals. -/
def listSum : List ℚ → ℚ
  | [] => 0
  | x :: xs => x + listSum xs

/-- Sum of `f 0 + f 1 + ... + f (n-1)`. -/
def sumRange (f : ℕ → ℚ) : ℕ → ℚ
  | 0 => 0
  | n + 1 => sumRange f n + f n

/-- Maximum of `f lo, f (lo+1), ..., f (lo+n)`. -/
def maxFrom (f : ℕ → ℚ) (lo : ℕ) : ℕ → ℚ
  | 0 => f lo
  | n + 1 => max (maxFrom f lo n) (f (lo + n + 1))

/-- Minimum of `f lo, f (lo+1), ..., f (lo+n)`. -/
def minFrom (f : ℕ → ℚ) (lo : ℕ) : ℕ → ℚ
  | 0 => f lo
  | n + 1 => min (minFrom f lo n) (f (lo + n + 1))

/-- Modelled from the spec (section 4.2, LoadAggregator): a monthly quantity is
the yearly-repeated 12-entry pattern; month index `i` reads entry `i % 12`. -/
def monthVal (l : List ℚ) (i : ℕ) : ℚ := l.getD (i % 12) 0

/-- Modelled from the spec (section 4.1, GFunctionStore): linear interpolation
between the two nearest tabulated points; before the first point the first
value is used and beyond the last point the last value is kept (bounded,
deterministic extrapolation policy). -/
def interpolate : GFunc → ℚ → ℚ
  | [], _ => 0
  | [(_, v)], _ => v
  | (t1, v1) :: (t2, v2) :: rest, t =>
      if t ≤ t1 then v1
      else if t ≤ t2 then v1 + (v2 - v1) * (t - t1) / (t2 - t1)
      else interpolate ((t2, v2) :: rest) t

/-- Modelled from the spec (sections 4.2 and 4.3, numerical semantics): net
constant-rate load of month `i` in kW, heating negative (extraction), cooling
positive (injection); energies are kWh over a 730-hour month. -/
def qBase (b : Borefield) (i : ℕ) : ℚ :=
  (monthVal b.baseloadCooling i - monthVal b.baseloadHeating i) / 730

/-- Modelled from the spec (section 4.3): the signed cooling-peak power of month
`m`; the worst-case instantaneous injection rate is never below the base rate. -/
def peakQc (b : Borefield) (m : ℕ) : ℚ := max (monthVal b.peakCooling m) (qBase b m)

/-- Modelled from the spec (section 4.3): the signed heating-peak power of month
`m` (negative); the worst-case extraction rate is never above the base rate. -/
def peakQh (b : Borefield) (m : ℕ) : ℚ := min (-(monthVal b.peakHeating m)) (qBase b m)

/-- Load-step increment `q_i - q_(i-1)` of the spec's superposition formula. -/
def deltaQ (q : ℕ → ℚ) (i : ℕ) : ℚ :=
  q i - (match i with
         | 0 => 0
         | j + 1 => q j)

/-- Modelled from the spec (section 4.3, TemperatureSimulator): temporal
superposition of step responses.  Evaluating at the end of month `m` (elapsed
time `m + 1` months), every prior load step `i` contributes
`(q_i - q_(i-1)) * response(t_m - t_i)`. -/
def wallNum (q : ℕ → ℚ) (g : GFunc) (m : ℕ) : ℚ :=
  sumRange (fun i => deltaQ q i * interpolate g ((m : ℚ) + 1 - (i : ℚ))) (m + 1)

/-- Modelled from the spec (section 4.3): the depth-independent numerator of the
peak-cooling fluid temperature rise in month `m` (the depth-dependent factor is
`1 / depth`): base-load superposition plus the cooling-peak step for the month,
scaled by `1 / (2 pi k_s)`, plus the resistance drop `q * Rb`. -/
def coolNum (b : Borefield) (g : GFunc) (m : ℕ) : ℚ :=
  (wallNum (qBase b) g m + (peakQc b m - qBase b m) * interpolate g tPeak) /
      (twoPi * b.ground.k_s) +
    peakQc b m * b.Rb

/-- Modelled from the spec (section 4.3): the depth-independent numerator of the
peak-heating fluid temperature drop in month `m` (negative when extracting). -/
def heatNum (b : Borefield) (g : GFunc) (m : ℕ) : ℚ :=
  (wallNum (qBase b) g m + (peakQh b m - qBase b m) * interpolate g tPeak) /
      (twoPi * b.ground.k_s) +
    peakQh b m * b.Rb

/-- Modelled from the spec (section 4.3): the predicted peak-cooling fluid
temperature at the end of month `m` for a borefield of depth `d`: the
undisturbed ground temperature plus the superposed rise divided by depth. -/
def temperature (b : Borefield) (g : GFunc) (d : ℚ) (m : ℕ) : ℚ :=
  b.ground.Tg + coolNum b g m / d

/-- The maximum predicted fluid temperature over the whole simulation horizon
at depth `d` (the extremum the cooling bound constrains). -/
def maxTemperature (b : Borefield) (g : GFunc) (d : ℚ) : ℚ :=
  maxFrom (temperature b g d) 0 (12 * b.simulationPeriod - 1)

/-- Modelled from the spec (section 4.2): net signed annual energy in kWh per
year, cooling injection positive, heating extraction negative. -/
def annualNetInjection (b : Borefield) : ℚ :=
  listSum b.baseloadCooling - listSum b.baseloadHeating

/-- Modelled from the spec (section 4.2, LoadAggregator): the overall imbalance
is the sum of the signed annual energies over the simulation horizon divided by
the simulation horizon. -/
def imbalance (b : Borefield) : ℚ :=
  sumRange (fun _ => annualNetInjection b) b.simulationPeriod /
    (b.simulationPeriod : ℚ)

/-- Modelled from the spec (section 4.4, root-finding policy): the converged
depth of the monotone bracketing search for a cooling-limited scenario whose
largest temperature numerator is `M`: the depth at which the binding constraint
`Tg + M / d = Tmax` holds with equality.  When the ceiling can never bind
(`M ≤ 0`) or lies below the undisturbed ground temperature the quadrant is
locally infeasible and is skipped (spec section 7). -/
def coolDepth (b : Borefield) (M : ℚ) : Option ℚ :=
  if 0 < M ∧ b.ground.Tg < b.Tmax then some (M / (b.Tmax - b.ground.Tg)) else none

/-- Modelled from the spec (section 4.4): the converged depth for a
heating-limited scenario whose smallest temperature numerator is `m`
(constraint `Tg + m / d = Tmin`); skipped when the floor can never bind. -/
def heatDepth (b : Borefield) (m : ℚ) : Option ℚ :=
  if m < 0 ∧ b.Tmin < b.ground.Tg then some (m / (b.Tmin - b.ground.Tg)) else none

/-- Modelled from the spec (sections 4.4 and 6): the converged depth of one
quadrant.  The first-year quadrants evaluate the twelve months of the first
simulated year.  Under the L2 strategy the last-year quadrants evaluate only
the twelve months of the last simulated year; under the L3 strategy they
evaluate every month of the full multi-year horizon. -/
def quadrantDepth (b : Borefield) (g : GFunc) (s : Strategy) : Quadrant → Option ℚ
  | .firstHeating => heatDepth b (minFrom (heatNum b g) 0 11)
  | .firstCooling => coolDepth b (maxFrom (coolNum b g) 0 11)
  | .lastHeating =>
      match s with
      | .L2 => heatDepth b (minFrom (heatNum b g) (12 * (b.simulationPeriod - 1)) 11)
      | .L3 => heatDepth b (minFrom (heatNum b g) 0 (12 * b.simulationPeriod - 1))
  | .lastCooling =>
      match s with
      | .L2 => coolDepth b (maxFrom (coolNum b g) (12 * (b.simulationPeriod - 1)) 11)
      | .L3 => coolDepth b (maxFrom (coolNum b g) 0 (12 * b.simulationPeriod - 1))

/-- The four quadrants in evaluation order (spec section 4.4). -/
def quadrantList : List Quadrant :=
  [.firstHeating, .firstCooling, .lastHeating, .lastCooling]

/-- Sequencing of fallible sizing steps. -/
def exceptBind {α β : Type} :
    Except SizingError α → (α → Except SizingError β) → Except SizingError β
  | .error e, _ => .error e
  | .ok a, f => f a

/-- Modelled from the spec (section 7): the fan-out/reduce of the quadrant
search keeps the maximum of the locally feasible quadrant depths and raises
`SizingDidNotConvergeError` only if every quadrant failed. -/
def maxList : List ℚ → Except SizingError ℚ
  | [] => .error .sizingDidNotConvergeError
  | d :: ds => .ok (ds.foldl max d)

/-- Modelled from the spec (section 4.4, SizingEngine): pinned-quadrant sizing
returns that quadrant's converged depth; the automatic search evaluates all
four quadrants and selects the one producing the largest required depth. -/
def sizeCore (b : Borefield) (g : GFunc) (s : Strategy) :
    Option Quadrant → Except SizingError ℚ
  | some q =>
      (quadrantDepth b g s q).elim (.error .sizingDidNotConvergeError) .ok
  | none => maxList (quadrantList.filterMap (quadrantDepth b g s))

/-- Association lookup in the per-aggregate custom dataset registry. -/
def lookupStore (n : String) : List (String × GFunc) → Option GFunc
  | [] => none
  | (m, g) :: rest => if n = m then some g else lookupStore n rest

/-- Modelled from the spec (section 4.1): response data selection.  In custom
mode the caller-registered dataset for the selected name is used and a missing
registration is a `ConfigurationError`; otherwise the resident precomputed
table is used. -/
def resolveG (b : Borefield) (pre : GFunc) : Except SizingError GFunc :=
  if b.useCustom then
    match lookupStore b.customName b.customStore with
    | some g => .ok g
    | none => .error .configurationError
  else .ok pre

/-- Modelled from the spec (sections 2 and 4.4): the external ResistanceProvider
collaborator — given fluid data, pipe data and a depth it returns an effective
borehole resistance value (multipole/convection details are out of scope). -/
def dynamicRb (f : FluidData) (p : PipeData) (d : ℚ) : ℚ :=
  (p.r_out - p.r_in) * p.k_g + f.mu + d / 1000

/-- Modelled from the spec (section 4.4, resistance coupling): the nested
depth/resistance fixed point.  Each trial recomputes the resistance at the
current depth, re-sizes with it, and stops when the depth moved by at most the
convergence tolerance; the fuel argument is the combined iteration budget. -/
def dynLoop (b : Borefield) (g : GFunc) (s : Strategy) (q : Option Quadrant)
    (fl : FluidData) (pd : PipeData) : ℕ → ℚ → Except SizingError (ℚ × ℚ)
  | 0, _ => .error .sizingDidNotConvergeError
  | k + 1, d =>
      exceptBind (sizeCore { b with Rb := dynamicRb fl pd d } g s q) fun dNew =>
        if |dNew - d| ≤ convergenceTol then .ok (dNew, dynamicRb fl pd d)
        else dynLoop b g s q fl pd k dNew

/-- Modelled from the spec (sections 4.4, 6 and 7): the sizing call surface
`size(initial_depth_guess, strategy, quadrant, use_constant_Rb)`.  Response
data is resolved first (custom-mode misconfiguration surfaces as
`ConfigurationError`), contradictory temperature bounds are a
`ConfigurationError`, dynamic resistance without fluid and pipe data is a
`ConfigurationError`.  On success the converged depth is returned and the
aggregate's current depth (and, for dynamic resistance, its current equivalent
resistance) is updated.  The converged fixed point of the monotone bracketing
search does not depend on the initial guess; the guess seeds the
depth/resistance iteration in dynamic-resistance mode. -/
def size (b : Borefield) (pre : GFunc) (d0 : ℚ) (s : Strategy)
    (q : Option Quadrant) (useConstantRb : Bool) :
    Except SizingError (ℚ × Borefield) :=
  exceptBind (resolveG b pre) fun g =>
    if b.Tmin < b.Tmax then
      cond useConstantRb
        (exceptBind (sizeCore b g s q) fun d => .ok (d, { b with H := d }))
        (match b.fluid, b.pipe with
          | some fl, some pd =>
              exceptBind (dynLoop b g s q fl pd iterCap d0) fun p =>
                .ok (p.1, { b with H := p.1, Rb := p.2 })
          | _, _ => .error .configurationError)
    else .error .configurationError

/-! Concrete scenarios used by the witnesses and counterexamples. -/

/-- Fluid data of `main_functionalities.py`: `FluidData(0.2, 0.568, 998, 4180, 1e-3)`. -/
def cfl : FluidData := ⟨1/5, 71/125, 998, 4180, 1/1000⟩

/-- Pipe data of `main_functionalities.py`: `PipeData(1, 0.015, 0.02, 0.4, 0.05, 0.075, 2)`. -/
def cpi : PipeData := ⟨1, 3/200, 1/50, 2/5, 1/20, 3/40, 2⟩

/-- A linear, increasing g-function table. -/
def gS : GFunc := [(0, 0), (24, 2)]

/-- A one-year scenario with cooling in the first half year and heating in the
second, peaks on top of both, used as a generic feasible configuration. -/
def cb : Borefield :=
  { simulationPeriod := 1
    peakHeating := [0, 0, 0, 0, 0, 0, 200, 200, 200, 200, 200, 200]
    peakCooling := [200, 200, 200, 200, 200, 200, 0, 0, 0, 0, 0, 0]
    baseloadHeating := [0, 0, 0, 0, 0, 0, 73000, 73000, 73000, 73000, 73000, 73000]
    baseloadCooling := [73000, 73000, 73000, 73000, 73000, 73000, 0, 0, 0, 0, 0, 0]
    ground := ⟨110, 13/2, 25/157, 10, 1/5, 12, 10⟩
    Tmax := 16
    Tmin := 0
    H := 110
    Rb := 1/5
    useCustom := false
    customName := ""
    customStore := []
    fluid := some cfl
    pipe := some cpi }

/-- A purely heat-extraction scenario: every month extracts 730 kWh, no cooling
and no peaks, so every predicted temperature lies below the undisturbed ground
temperature. -/
def cbC3 : Borefield :=
  { cb with
    peakHeating := [0, 0, 0, 0, 0, 0, 0, 0, 0, 0, 0, 0]
    peakCooling := [0, 0, 0, 0, 0, 0, 0, 0, 0, 0, 0, 0]
    baseloadHeating := [730, 730, 730, 730, 730, 730, 730, 730, 730, 730, 730, 730]
    baseloadCooling := [0, 0, 0, 0, 0, 0, 0, 0, 0, 0, 0, 0] }

/-- A purely heat-injection scenario used to witness the amended monotonicity
statement. -/
def cbW3 : Borefield :=
  { cb with
    peakHeating := [0, 0, 0, 0, 0, 0, 0, 0, 0, 0, 0, 0]
    peakCooling := [2, 2, 2, 2, 2, 2, 2, 2, 2, 2, 2, 2]
    baseloadHeating := [0, 0, 0, 0, 0, 0, 0, 0, 0, 0, 0, 0]
    baseloadCooling := [730, 730, 730, 730, 730, 730, 730, 730, 730, 730, 730, 730] }

/-- An increasing g-function table whose monthly increments are concentrated
between months 5..6 and 25..26. -/
def gC4 : GFunc := [(0, 0), (5, 0), (6, 100), (25, 100), (26, 200), (1000, 200)]

/-- A three-year scenario with a base cooling load of 730 kWh every month, an
extra 7300 kWh cooling pulse each December and a 7300 kWh heating pulse each
April; together with `gC4` its temperature extremum falls in the middle
simulated year. -/
def cbC4 : Borefield :=
  { cb with
    simulationPeriod := 3
    peakHeating := [0, 0, 0, 0, 0, 0, 0, 0, 0, 0, 0, 0]
    peakCooling := [0, 0, 0, 0, 0, 0, 0, 0, 0, 0, 0, 0]
    baseloadHeating := [0, 0, 0, 7300, 0, 0, 0, 0, 0, 0, 0, 0]
    baseloadCooling := [730, 730, 730, 730, 730, 730, 730, 730, 730, 730, 730, 8030]
    Rb := 0 }

/-- The all-zero load profile. -/
def cbZ : Borefield :=
  { cb with
    peakHeating := List.replicate 12 0
    peakCooling := List.replicate 12 0
    baseloadHeating := List.replicate 12 0
    baseloadCooling := List.replicate 12 0 }

/-- `cb` with a custom dataset equal to the precomputed table `gS` registered
and selected under the same name. -/
def cb5 : Borefield :=
  { cb with
    useCustom := true
    customName := "custom_field"
    customStore := [("custom_field", gS)] }

/-- Maximum of two locally-skippable quadrant outcomes: a skipped quadrant
(`none`) contributes nothing to the fan-out/reduce maximum (spec section 7). -/
def omax : Option ℚ → Option ℚ → Option ℚ
  | none, o => o
  | some x, none => some x
  | some x, some y => some (max x y)

/-! Helper lemmas. -/

theorem exceptBind_ok {α β : Type} (a : α) (f : α → Except SizingError β) :
    exceptBind (.ok a) f = f a := rfl

theorem exceptBind_error {α β : Type} (e : SizingError) (f : α → Except SizingError β) :
    exceptBind (.error e) f = .error e := rfl

theorem sumRange_eq_zero {f : ℕ → ℚ} :
    ∀ {n : ℕ}, (∀ i, i < n → f i = 0) → sumRange f n = 0
  | 0, _ => rfl
  | n + 1, h => by
      rw [sumRange, sumRange_eq_zero fun i hi => h i (hi.trans n.lt_succ_self),
        h n n.lt_succ_self, add_zero]

theorem sumRange_const (c : ℚ) : ∀ n : ℕ, sumRange (fun _ => c) n = (n : ℚ) * c
  | 0 => by rw [sumRange]; push_cast; ring
  | n + 1 => by rw [sumRange, sumRange_const c n]; push_cast; ring

theorem maxFrom_const {f : ℕ → ℚ} {c : ℚ} (h : ∀ i, f i = c) (lo : ℕ) :
    ∀ n : ℕ, maxFrom f lo n = c
  | 0 => h lo
  | n + 1 => by rw [maxFrom, maxFrom_const h lo n, h (lo + n + 1), max_self]

theorem minFrom_const {f : ℕ → ℚ} {c : ℚ} (h : ∀ i, f i = c) (lo : ℕ) :
    ∀ n : ℕ, minFrom f lo n = c
  | 0 => h lo
  | n + 1 => by rw [minFrom, minFrom_const h lo n, h (lo + n + 1), min_self]

theorem maxFrom_add_div (f : ℕ → ℚ) (c d : ℚ) (hd : 0 < d) (lo : ℕ) :
    ∀ n : ℕ, maxFrom (fun m => c + f m / d) lo n = c + maxFrom f lo n / d
  | 0 => rfl
  | n + 1 => by
      rw [maxFrom, maxFrom_add_div f c d hd lo n, maxFrom,
        ← max_div_div_right hd.le (maxFrom f lo n) (f (lo + n + 1))]
      exact max_add_add_left c _ _

/-- Every position of an all-zero list reads the default zero. -/
theorem getD_all_zero : ∀ {l : List ℚ}, (∀ x ∈ l, x = 0) → ∀ m : ℕ, l.getD m 0 = 0
  | [], _, m => List.getD_nil
  | x :: xs, h, 0 => by rw [List.getD_cons_zero]; exact h x (List.mem_cons_self x xs)
  | x :: xs, h, m + 1 => by
      rw [List.getD_cons_succ]
      exact getD_all_zero (fun y hy => h y (List.mem_cons_of_mem x hy)) m

/-- Months of an all-zero pattern all read zero. -/
theorem monthVal_all_zero {l : List ℚ} (h : ∀ x ∈ l, x = 0) (i : ℕ) :
    monthVal l i = 0 := getD_all_zero h (i % 12)

/-! Convergence facts of the sizing engine. -/

/-- The per-quadrant converged depth never reads the aggregate's current depth
field, so updating the current depth leaves re-sizing unchanged. -/
theorem sizeCore_setH (b : Borefield) (x : ℚ) (g : GFunc) (s : Strategy)
    (q : Option Quadrant) : sizeCore { b with H := x } g s q = sizeCore b g s q := rfl

/-- The depth/resistance fixed-point loop reads neither the current depth nor
the current stored resistance (each trial recomputes the resistance) nor the
fluid/pipe records (it receives the fluid and pipe data as arguments), so
updating those fields leaves it unchanged. -/
theorem dynLoop_setState (b : Borefield) (x y : ℚ) (flo : Option FluidData)
    (pdo : Option PipeData) (g : GFunc) (s : Strategy)
    (q : Option Quadrant) (fl : FluidData) (pd : PipeData) :
    ∀ (k : ℕ) (d0 : ℚ),
      dynLoop { b with H := x, Rb := y, fluid := flo, pipe := pdo } g s q fl pd k d0 =
        dynLoop b g s q fl pd k d0 := by
  intro k
  induction k with
  | zero => intro d0; rfl
  | succ n ih =>
      intro d0
      have hss : sizeCore
          { b with H := x, Rb := dynamicRb fl pd d0, fluid := flo, pipe := pdo } g s q
          = sizeCore { b with Rb := dynamicRb fl pd d0 } g s q := rfl
      show exceptBind
          (sizeCore { b with H := x, Rb := dynamicRb fl pd d0, fluid := flo, pipe := pdo }
            g s q)
          (fun dNew => if |dNew - d0| ≤ convergenceTol then .ok (dNew, dynamicRb fl pd d0)
            else dynLoop { b with H := x, Rb := y, fluid := flo, pipe := pdo }
              g s q fl pd n dNew) =
        exceptBind (sizeCore { b with Rb := dynamicRb fl pd d0 } g s q)
          (fun dNew => if |dNew - d0| ≤ convergenceTol then .ok (dNew, dynamicRb fl pd d0)
            else dynLoop b g s q fl pd n dNew)
      rw [hss]
      rcases hsc : sizeCore { b with Rb := dynamicRb fl pd d0 } g s q with e | dNew
      · rfl
      · rw [exceptBind_ok, exceptBind_ok]
        by_cases htol : |dNew - d0| ≤ convergenceTol
        · rw [if_pos htol, if_pos htol]
        · rw [if_neg htol, if_neg htol, ih dNew]

/-- For a positive depth the maximum simulated temperature is the undisturbed
ground temperature plus the largest monthly numerator divided by the depth. -/
theorem maxTemperature_eq (b : Borefield) (g : GFunc) (d : ℚ) (hd : 0 < d) :
    maxTemperature b g d =
      b.ground.Tg + maxFrom (coolNum b g) 0 (12 * b.simulationPeriod - 1) / d :=
  maxFrom_add_div (coolNum b g) b.ground.Tg d hd 0 (12 * b.simulationPeriod - 1)

/-- Claim C9: the imbalance exposed by the aggregate equals the sum of the
signed annual energies (cooling injection positive, heating extraction
negative) over the simulation horizon divided by the horizon, i.e. the signed
net annual energy in kWh per year, and it is negative exactly when the field
is heat-extraction dominated. -/
theorem c9_imbalance_net_annual (b : Borefield) (hp : 0 < b.simulationPeriod) :
    imbalance b = listSum b.baseloadCooling - listSum b.baseloadHeating ∧
      (imbalance b < 0 ↔ listSum b.baseloadCooling < listSum b.baseloadHeating) := by
  have hn : ((b.simulationPeriod : ℚ)) ≠ 0 := Nat.cast_ne_zero.mpr hp.ne'
  have him : imbalance b = annualNetInjection b := by
    rw [imbalance, sumRange_const (annualNetInjection b) b.simulationPeriod,
      mul_div_cancel_left₀ _ hn]
  rw [him, annualNetInjection]
  exact ⟨rfl, sub_neg⟩

/-- Claim C9 witness: the shared scenario has balanced loads, zero imbalance. -/
theorem c9_witness :
    imbalance cb = listSum cb.baseloadCooling - listSum cb.baseloadHeating ∧
      (imbalance cb < 0 ↔ listSum cb.baseloadCooling < listSum cb.baseloadHeating) :=
  c9_imbalance_net_annual cb (by decide)

/-- Claim C3 counterexample: in a purely heat-extraction scenario every
predicted temperature lies below the undisturbed ground temperature, and the
maximum predicted temperature strictly increases (moves up towards the
undisturbed value) when the depth grows from 1 to 2, refuting the claim that
the maximum temperature is always non-increasing in depth. -/
theorem c3_counterexample :
    (1 : ℚ) < 2 ∧ ¬ (maxTemperature cbC3 gS 2 ≤ maxTemperature cbC3 gS 1) := by decide

/-- Claim C3 (amended): for fixed loads and parameters and valid depths
`d1 < d2`, whenever the maximum predicted temperature at `d1` is at least the
undisturbed ground temperature (the cooling bound is the side that can bind),
the maximum predicted temperature at the larger depth `d2` is at most the one
at `d1` — the monotonicity that makes the bracketing root-finder correct. -/
theorem c3_max_temperature_monotone (b : Borefield) (g : GFunc) (d1 d2 : ℚ)
    (hd1 : 0 < d1) (hdd : d1 < d2)
    (hM : b.ground.Tg ≤ maxTemperature b g d1) :
    maxTemperature b g d2 ≤ maxTemperature b g d1 := by
  have hd2 : 0 < d2 := hd1.trans hdd
  rw [maxTemperature_eq b g d1 hd1] at hM ⊢
  rw [maxTemperature_eq b g d2 hd2]
  have hM0 : 0 ≤ maxFrom (coolNum b g) 0 (12 * b.simulationPeriod - 1) := by
    by_contra hneg
    push_neg at hneg
    have : maxFrom (coolNum b g) 0 (12 * b.simulationPeriod - 1) / d1 < 0 :=
      div_neg_of_neg_of_pos hneg hd1
    have := (le_add_iff_nonneg_right b.ground.Tg).mp hM
    linarith
  exact add_le_add_left (div_le_div_of_nonneg_left hM0 hd1 hdd.le) b.ground.Tg

/-- Claim C3 witness: a heat-injection dominated scenario where the premise
holds and the maximum temperature indeed does not increase from depth 1 to 2. -/
theorem c3_witness :
    (0 : ℚ) < 1 ∧ (1 : ℚ) < 2 ∧ cbW3.ground.Tg ≤ maxTemperature cbW3 gS 1 ∧
      maxTemperature cbW3 gS 2 ≤ maxTemperature cbW3 gS 1 :=
  ⟨by decide, by decide, by decide,
    c3_max_temperature_monotone cbW3 gS 1 2 (by decide) (by decide) (by decide)⟩

/-- Claim C7: selecting the custom-dataset mode under a name that differs from
the one the dataset was registered under leaves the registry lookup empty, and
any sizing call in that state fails with `ConfigurationError`. -/
theorem c7_unregistered_custom_error (b : Borefield) (pre g' : GFunc) (d0 : ℚ)
    (s : Strategy) (q : Option Quadrant) (rbFlag : Bool) (n n' : String)
    (hs : b.customStore = []) (hne : n' ≠ n) :
    lookupStore n' ((createCustomDataset b g' n).customStore) = none ∧
      size (setCustomGfunction (createCustomDataset b g' n) n') pre d0 s q rbFlag =
        .error .configurationError := by
  have hl : lookupStore n' ((createCustomDataset b g' n).customStore) = none := by
    simp [createCustomDataset, hs, lookupStore, hne]
  refine ⟨hl, ?_⟩
  have hres : resolveG (setCustomGfunction (createCustomDataset b g' n) n') pre =
      .error .configurationError := by
    rw [resolveG]
    have hu : (setCustomGfunction (createCustomDataset b g' n) n').useCustom = true := rfl
    rw [hu, if_pos rfl]
    have hl' : lookupStore (setCustomGfunction (createCustomDataset b g' n) n').customName
        (setCustomGfunction (createCustomDataset b g' n) n').customStore = none := hl
    rw [hl']
  rw [size, hres, exceptBind_error]

/-- Claim C7 witness: registering under the name used by `cases.py`
(`custom_field`) and selecting the name `customfield` fails the lookup and the
sizing call. -/
theorem c7_witness :
    lookupStore "customfield" ((createCustomDataset cb gS "custom_field").customStore) = none ∧
      size (setCustomGfunction (createCustomDataset cb gS "custom_field") "customfield")
          gS 100 .L2 none true = .error .configurationError :=
  c7_unregistered_custom_error cb gS gS 100 .L2 none true "custom_field" "customfield"
    rfl (by decide)

/-- Claim C6: for every configuration whose monthly heating and cooling
energies and peaks are all zero, `size` fails with the explicit infeasibility
error of the spec's quadrant search (no quadrant can ever bind), instead of
returning a depth — for the automatic search and for every pinned quadrant. -/
theorem c6_zero_load_error (b : Borefield) (pre : GFunc) (d0 : ℚ) (s : Strategy)
    (hbh : ∀ i, monthVal b.baseloadHeating i = 0)
    (hbc : ∀ i, monthVal b.baseloadCooling i = 0)
    (hph : ∀ i, monthVal b.peakHeating i = 0)
    (hpc : ∀ i, monthVal b.peakCooling i = 0)
    (hcu : b.useCustom = false) (hTb : b.Tmin < b.Tmax) :
    ∀ q : Option Quadrant, size b pre d0 s q true = .error .sizingDidNotConvergeError := by
  have hq : ∀ i, qBase b i = 0 := fun i => by rw [qBase, hbh i, hbc i]; norm_num
  have hqc : ∀ m, peakQc b m = 0 := fun m => by rw [peakQc, hpc m, hq m, max_self]
  have hqh : ∀ m, peakQh b m = 0 := fun m => by
    rw [peakQh, hph m, hq m, neg_zero, min_self]
  have hdq : ∀ i, deltaQ (qBase b) i = 0 := by
    intro i
    cases i with
    | zero => show qBase b 0 - 0 = 0; rw [hq 0, sub_zero]
    | succ j => show qBase b (j + 1) - qBase b j = 0; rw [hq (j + 1), hq j, sub_zero]
  have hw : ∀ (g : GFunc) (m : ℕ), wallNum (qBase b) g m = 0 := fun g m =>
    sumRange_eq_zero fun i _ => by rw [hdq i, zero_mul]
  have hcn : ∀ (g : GFunc) (m : ℕ), coolNum b g m = 0 := fun g m => by
    rw [coolNum, hw g m, hqc m, hq m]; simp
  have hhn : ∀ (g : GFunc) (m : ℕ), heatNum b g m = 0 := fun g m => by
    rw [heatNum, hw g m, hqh m, hq m]; simp
  have hcd : coolDepth b 0 = none := by
    rw [coolDepth, if_neg]; rintro ⟨h0, _⟩; exact lt_irrefl 0 h0
  have hhd : heatDepth b 0 = none := by
    rw [heatDepth, if_neg]; rintro ⟨h0, _⟩; exact lt_irrefl 0 h0
  have hquad : ∀ qq : Quadrant, quadrantDepth b pre s qq = none := by
    intro qq
    cases qq <;> cases s <;>
      simp only [quadrantDepth, maxFrom_const (hcn pre), minFrom_const (hhn pre), hcd, hhd]
  intro q
  have hres : resolveG b pre = .ok pre := by rw [resolveG, hcu]; rfl
  rw [size, hres, exceptBind_ok, if_pos hTb]
  cases q with
  | some qq =>
      show exceptBind ((quadrantDepth b pre s qq).elim
        (.error .sizingDidNotConvergeError) .ok) _ = _
      rw [hquad qq]
      rfl
  | none =>
      show exceptBind (maxList (quadrantList.filterMap (quadrantDepth b pre s))) _ = _
      have hfm : quadrantList.filterMap (quadrantDepth b pre s) = [] := by
        simp [quadrantList, hquad]
      rw [hfm]
      rfl

/-- Claim C6 witness: the all-zero load profile fails sizing with the
infeasibility error. -/
theorem c6_witness : size cbZ gS 100 .L2 none true = .error .sizingDidNotConvergeError :=
  c6_zero_load_error cbZ gS 100 .L2
    (monthVal_all_zero fun x hx => List.eq_of_mem_replicate hx)
    (monthVal_all_zero fun x hx => List.eq_of_mem_replicate hx)
    (monthVal_all_zero fun x hx => List.eq_of_mem_replicate hx)
    (monthVal_all_zero fun x hx => List.eq_of_mem_replicate hx)
    rfl (by decide) none

/-- Claim C5: if the registered custom dataset selected by the aggregate
equals the resident precomputed table, sizing through the custom path returns
the same depth as sizing through the precomputed path, so the relative
difference is zero, within the 0.2 percent interpolation tolerance asserted by
`cases.py`. -/
theorem c5_custom_roundtrip (b : Borefield) (pre : GFunc) (d0 : ℚ) (s : Strategy)
    (q : Option Quadrant) (hcu : b.useCustom = true)
    (hlook : lookupStore b.customName b.customStore = some pre) :
    (size b pre d0 s q true).map Prod.fst =
      (size { b with useCustom := false } pre d0 s q true).map Prod.fst ∧
    ∀ d st d' st', size b pre d0 s q true = .ok (d, st) →
      size { b with useCustom := false } pre d0 s q true = .ok (d', st') →
      |d - d'| / d' ≤ 1 / 500 := by
  have h1 : resolveG b pre = .ok pre := by rw [resolveG, hcu, if_pos rfl, hlook]
  have h2 : resolveG { b with useCustom := false } pre = .ok pre := rfl
  have hmain : (size b pre d0 s q true).map Prod.fst =
      (size { b with useCustom := false } pre d0 s q true).map Prod.fst := by
    rw [size, size, h1, h2, exceptBind_ok, exceptBind_ok]
    by_cases hb : b.Tmin < b.Tmax
    · rw [if_pos hb,
        if_pos (show ({ b with useCustom := false } : Borefield).Tmin <
          ({ b with useCustom := false } : Borefield).Tmax from hb)]
      have hsc : sizeCore { b with useCustom := false } pre s q = sizeCore b pre s q := rfl
      show (exceptBind (sizeCore b pre s q) fun d => .ok (d, { b with H := d })).map
          Prod.fst =
        (exceptBind (sizeCore { b with useCustom := false } pre s q) fun d =>
          .ok (d, { b with useCustom := false, H := d })).map Prod.fst
      rw [hsc]
      rcases sizeCore b pre s q with e | dd
      · rfl
      · rfl
    · rw [if_neg hb,
        if_neg (show ¬ ({ b with useCustom := false } : Borefield).Tmin <
          ({ b with useCustom := false } : Borefield).Tmax from hb)]
  refine ⟨hmain, ?_⟩
  intro d st d' st' hc hp2
  rw [hc, hp2] at hmain
  have hdd : d = d' := by
    simpa [Except.map] using hmain
  rw [hdd, sub_self, abs_zero, zero_div]
  norm_num

/-- Claim C5 witness: the registered copy of `gS` reproduces the precomputed
path on the shared scenario, which sizes successfully. -/
theorem c5_witness :
    (size cb5 gS 100 .L2 none true).map Prod.fst =
      (size { cb5 with useCustom := false } gS 100 .L2 none true).map Prod.fst ∧
    size cb5 gS 100 .L2 none true = .ok (6575 / 438, { cb5 with H := 6575 / 438 }) :=
  ⟨(c5_custom_roundtrip cb5 gS 100 .L2 none rfl (by decide)).1, by decide⟩

/-- Claim C8: a successful `size` call updates only the aggregate's current
depth (and, in dynamic-resistance mode, its current resistance), and calling
`size` again on the updated aggregate with the identical inputs returns
exactly the same converged depth and the same aggregate state — deterministic,
idempotent convergence. -/
theorem c8_size_idempotent (b : Borefield) (pre : GFunc) (d0 : ℚ) (s : Strategy)
    (q : Option Quadrant) (rbFlag : Bool) (d : ℚ) (b' : Borefield)
    (h : size b pre d0 s q rbFlag = .ok (d, b')) :
    size b' pre d0 s q rbFlag = .ok (d, b') := by
  rw [size] at h
  rcases hr : resolveG b pre with e | g
  · rw [hr, exceptBind_error] at h; exact Except.noConfusion h
  rw [hr, exceptBind_ok] at h
  by_cases hb : b.Tmin < b.Tmax
  swap
  · rw [if_neg hb] at h; exact Except.noConfusion h
  rw [if_pos hb] at h
  cases rbFlag with
  | true =>
      rw [Bool.cond_true] at h
      rcases hsc : sizeCore b g s q with e | dd
      · rw [hsc, exceptBind_error] at h; exact Except.noConfusion h
      rw [hsc, exceptBind_ok] at h
      have h2 := Except.ok.inj h
      have hd : dd = d := congrArg Prod.fst h2
      have hb2 : ({ b with H := dd } : Borefield) = b' := congrArg Prod.snd h2
      subst hd
      subst hb2
      rw [size]
      have hr' : resolveG { b with H := dd } pre = .ok g := hr
      rw [hr', exceptBind_ok,
        if_pos (show ({ b with H := dd } : Borefield).Tmin <
          ({ b with H := dd } : Borefield).Tmax from hb),
        Bool.cond_true]
      have hsc' : sizeCore { b with H := dd } g s q = .ok dd := hsc
      rw [hsc', exceptBind_ok]
  | false =>
      rw [Bool.cond_false] at h
      rcases hf : b.fluid with _ | fl <;> rcases hp2 : b.pipe with _ | pd <;>
        rw [hf, hp2] at h <;> dsimp only at h
      · exact Except.noConfusion h
      · exact Except.noConfusion h
      · exact Except.noConfusion h
      rcases hdl : dynLoop b g s q fl pd iterCap d0 with e | p
      · rw [hdl, exceptBind_error] at h; exact Except.noConfusion h
      rw [hdl, exceptBind_ok] at h
      have h2 := Except.ok.inj h
      have hd : p.1 = d := congrArg Prod.fst h2
      have hb2 : ({ b with H := p.1, Rb := p.2, fluid := some fl, pipe := some pd } :
          Borefield) = b' := congrArg Prod.snd h2
      subst hd
      subst hb2
      rw [size]
      have hr' : resolveG
          { b with H := p.1, Rb := p.2, fluid := some fl, pipe := some pd } pre =
          .ok g := hr
      rw [hr', exceptBind_ok,
        if_pos (show ({ b with H := p.1, Rb := p.2, fluid := some fl, pipe := some pd } :
            Borefield).Tmin <
          ({ b with H := p.1, Rb := p.2, fluid := some fl, pipe := some pd } :
            Borefield).Tmax from hb),
        Bool.cond_false]
      have hf' : ({ b with H := p.1, Rb := p.2, fluid := some fl, pipe := some pd } :
          Borefield).fluid = some fl := rfl
      have hp' : ({ b with H := p.1, Rb := p.2, fluid := some fl, pipe := some pd } :
          Borefield).pipe = some pd := rfl
      rw [hf', hp']
      dsimp only
      rw [dynLoop_setState b p.1 p.2 (some fl) (some pd) g s q fl pd iterCap d0, hdl,
        exceptBind_ok]

/-- Claim C8 witness: re-sizing the updated aggregate of the shared scenario
returns the identical depth and state. -/
theorem c8_witness :
    size cb gS 100 .L2 none true = .ok (6575 / 438, { cb with H := 6575 / 438 }) ∧
      size { cb with H := 6575 / 438 } gS 100 .L2 none true =
        .ok (6575 / 438, { cb with H := 6575 / 438 }) :=
  ⟨by decide, c8_size_idempotent cb gS 100 .L2 none true _ _ (by decide)⟩

/-- Claim C2: when every quadrant is evaluable, automatic quadrant selection
returns exactly the maximum of the four per-quadrant depths, updates the
current depth to it, and some quadrant — the winning one — reproduces that
same depth when pinned explicitly. -/
theorem c2_auto_quadrant_max (b : Borefield) (pre : GFunc) (d0 : ℚ) (s : Strategy)
    (d1 d2 d3 d4 : ℚ) (hcu : b.useCustom = false) (hTb : b.Tmin < b.Tmax)
    (h1 : quadrantDepth b pre s .firstHeating = some d1)
    (h2 : quadrantDepth b pre s .firstCooling = some d2)
    (h3 : quadrantDepth b pre s .lastHeating = some d3)
    (h4 : quadrantDepth b pre s .lastCooling = some d4) :
    size b pre d0 s none true =
      .ok (max (max (max d1 d2) d3) d4, { b with H := max (max (max d1 d2) d3) d4 }) ∧
    ∃ qq : Quadrant, size b pre d0 s (some qq) true =
      .ok (max (max (max d1 d2) d3) d4, { b with H := max (max (max d1 d2) d3) d4 }) := by
  have hres : resolveG b pre = .ok pre := by rw [resolveG, hcu]; rfl
  have hcand : quadrantList.filterMap (quadrantDepth b pre s) = [d1, d2, d3, d4] := by
    simp [quadrantList, h1, h2, h3, h4]
  have hauto : sizeCore b pre s none = .ok (max (max (max d1 d2) d3) d4) := by
    show maxList (quadrantList.filterMap (quadrantDepth b pre s)) = _
    rw [hcand]
    rfl
  have hpin : ∀ (qq : Quadrant) (dq : ℚ), quadrantDepth b pre s qq = some dq →
      dq = max (max (max d1 d2) d3) d4 →
      size b pre d0 s (some qq) true =
        .ok (max (max (max d1 d2) d3) d4,
          { b with H := max (max (max d1 d2) d3) d4 }) := by
    intro qq dq hq hEq
    rw [size, hres, exceptBind_ok, if_pos hTb, Bool.cond_true]
    show exceptBind ((quadrantDepth b pre s qq).elim
        (.error .sizingDidNotConvergeError) .ok) _ = _
    rw [hq]
    dsimp only [Option.elim]
    rw [exceptBind_ok, hEq]
  refine ⟨?_, ?_⟩
  · rw [size, hres, exceptBind_ok, if_pos hTb, Bool.cond_true, hauto, exceptBind_ok]
  · rcases max_choice (max (max d1 d2) d3) d4 with hA | hA
    · rcases max_choice (max d1 d2) d3 with hB | hB
      · rcases max_choice d1 d2 with hC | hC
        · exact ⟨.firstHeating, hpin _ _ h1 (by rw [hA, hB, hC])⟩
        · exact ⟨.firstCooling, hpin _ _ h2 (by rw [hA, hB, hC])⟩
      · exact ⟨.lastHeating, hpin _ _ h3 (by rw [hA, hB])⟩
    · exact ⟨.lastCooling, hpin _ _ h4 (by rw [hA])⟩

/-- Claim C2 witness: the shared one-year scenario has all four quadrants
evaluable and automatic selection returns their maximum, reproduced by the
winning pinned quadrant. -/
theorem c2_witness :
    quadrantDepth cb gS .L2 .firstHeating = some (585 / 146) ∧
    quadrantDepth cb gS .L2 .firstCooling = some (6575 / 438) ∧
    quadrantDepth cb gS .L2 .lastHeating = some (585 / 146) ∧
    quadrantDepth cb gS .L2 .lastCooling = some (6575 / 438) ∧
    size cb gS 100 .L2 none true =
      .ok (max (max (max (585 / 146 : ℚ) (6575 / 438)) (585 / 146)) (6575 / 438),
        { cb with
          H := max (max (max (585 / 146 : ℚ) (6575 / 438)) (585 / 146)) (6575 / 438) }) ∧
    ∃ qq : Quadrant, size cb gS 100 .L2 (some qq) true =
      .ok (max (max (max (585 / 146 : ℚ) (6575 / 438)) (585 / 146)) (6575 / 438),
        { cb with
          H := max (max (max (585 / 146 : ℚ) (6575 / 438)) (585 / 146)) (6575 / 438) }) := by
  have h1 : quadrantDepth cb gS .L2 .firstHeating = some (585 / 146) := by decide
  have h2 : quadrantDepth cb gS .L2 .firstCooling = some (6575 / 438) := by decide
  have h3 : quadrantDepth cb gS .L2 .lastHeating = some (585 / 146) := by decide
  have h4 : quadrantDepth cb gS .L2 .lastCooling = some (6575 / 438) := by decide
  have hc := c2_auto_quadrant_max cb gS 100 .L2 _ _ _ _ rfl (by decide) h1 h2 h3 h4
  exact ⟨h1, h2, h3, h4, hc.1, hc.2⟩

/-- Claim C4 counterexample: with the increasing custom response table `gC4`
and the load pattern of `cbC4` the temperature extremum falls in the middle
simulated year, both strategies converge, the L2 depth is 90 m, the L3 depth
is 550/3 m, and their relative difference exceeds the documented 5 percent
tolerance. -/
theorem c4_counterexample :
    size cbC4 gC4 100 .L2 none true = .ok (90, { cbC4 with H := 90 }) ∧
    size cbC4 gC4 100 .L3 none true = .ok (550 / 3, { cbC4 with H := 550 / 3 }) ∧
    ¬ (|(550 / 3 : ℚ) - 90| / (550 / 3) ≤ 1 / 20) :=
  ⟨by decide, by decide, by decide⟩

/-- The skip-aware quadrant maximum is idempotent. -/
theorem omax_self : ∀ o : Option ℚ, omax o o = o
  | none => rfl
  | some x => congrArg some (max_self x)

/-- The skip-aware quadrant maximum is commutative. -/
theorem omax_comm : ∀ o1 o2 : Option ℚ, omax o1 o2 = omax o2 o1
  | none, none => rfl
  | none, some _ => rfl
  | some _, none => rfl
  | some x, some y => congrArg some (max_comm x y)

/-- The skip-aware quadrant maximum is associative. -/
theorem omax_assoc : ∀ o1 o2 o3 : Option ℚ, omax (omax o1 o2) o3 = omax o1 (omax o2 o3)
  | none, _, _ => rfl
  | some _, none, _ => rfl
  | some _, some _, none => rfl
  | some x, some y, some z => congrArg some (max_assoc x y z)

theorem omax_left_comm (a b c : Option ℚ) : omax a (omax b c) = omax b (omax a c) := by
  rw [← omax_assoc, omax_comm a b, omax_assoc]

/-- Absorbing a duplicated argument of the skip-aware maximum. -/
theorem omax_pair (a b c : Option ℚ) : omax (omax a b) (omax a c) = omax a (omax b c) := by
  rw [omax_assoc, omax_left_comm b a c, ← omax_assoc a a (omax b c), omax_self]

/-- Folding the duplicated first-year candidates into the full-horizon
candidates leaves the overall skip-aware maximum unchanged. -/
theorem oShuffle (a b c d : Option ℚ) :
    omax (omax (omax a b) (omax a c)) (omax b d) = omax (omax (omax a b) c) d := by
  rw [omax_pair a b c, omax_assoc a (omax b c) (omax b d), omax_pair b c d,
    ← omax_assoc a b (omax c d), ← omax_assoc (omax a b) c d]

/-- The automatic quadrant search is the skip-aware maximum of the four
quadrant outcomes, an error when all four are skipped. -/
theorem sizeCore_auto_eq (b : Borefield) (g : GFunc) (s : Strategy) :
    sizeCore b g s none =
      (omax (omax (omax (quadrantDepth b g s .firstHeating)
          (quadrantDepth b g s .firstCooling)) (quadrantDepth b g s .lastHeating))
        (quadrantDepth b g s .lastCooling)).elim
        (.error .sizingDidNotConvergeError) .ok := by
  show maxList (quadrantList.filterMap (quadrantDepth b g s)) = _
  rw [quadrantList, List.filterMap_cons, List.filterMap_cons, List.filterMap_cons,
    List.filterMap_cons, List.filterMap_nil]
  rcases h1 : quadrantDepth b g s .firstHeating with _ | d1 <;>
    rcases h2 : quadrantDepth b g s .firstCooling with _ | d2 <;>
    rcases h3 : quadrantDepth b g s .lastHeating with _ | d3 <;>
    rcases h4 : quadrantDepth b g s .lastCooling with _ | d4 <;>
    rfl

/-- A cooling quadrant over the union of two month windows behaves as the
skip-aware maximum of the two windows' cooling quadrants. -/
theorem coolDepth_max (b : Borefield) (x y : ℚ) :
    coolDepth b (max x y) = omax (coolDepth b x) (coolDepth b y) := by
  simp only [coolDepth]
  by_cases hT : b.ground.Tg < b.Tmax
  · by_cases hx : 0 < x <;> by_cases hy : 0 < y
    · rw [if_pos (⟨lt_max_of_lt_left hx, hT⟩ :
          0 < max x y ∧ b.ground.Tg < b.Tmax),
        if_pos (⟨hx, hT⟩ : 0 < x ∧ b.ground.Tg < b.Tmax),
        if_pos (⟨hy, hT⟩ : 0 < y ∧ b.ground.Tg < b.Tmax)]
      exact congrArg some
        (max_div_div_right (sub_pos.mpr hT).le x y).symm
    · rw [if_pos (⟨lt_max_of_lt_left hx, hT⟩ :
          0 < max x y ∧ b.ground.Tg < b.Tmax),
        if_pos (⟨hx, hT⟩ : 0 < x ∧ b.ground.Tg < b.Tmax),
        if_neg (fun h => hy h.1 : ¬ (0 < y ∧ b.ground.Tg < b.Tmax))]
      show some (max x y / _) = some (x / _)
      rw [max_eq_left ((not_lt.mp hy).trans hx.le)]
    · rw [if_pos (⟨lt_max_of_lt_right hy, hT⟩ :
          0 < max x y ∧ b.ground.Tg < b.Tmax),
        if_neg (fun h => hx h.1 : ¬ (0 < x ∧ b.ground.Tg < b.Tmax)),
        if_pos (⟨hy, hT⟩ : 0 < y ∧ b.ground.Tg < b.Tmax)]
      show some (max x y / _) = some (y / _)
      rw [max_eq_right ((not_lt.mp hx).trans hy.le)]
    · rw [if_neg (fun h => (lt_max_iff.mp h.1).elim hx hy :
          ¬ (0 < max x y ∧ b.ground.Tg < b.Tmax)),
        if_neg (fun h => hx h.1 : ¬ (0 < x ∧ b.ground.Tg < b.Tmax)),
        if_neg (fun h => hy h.1 : ¬ (0 < y ∧ b.ground.Tg < b.Tmax))]
      rfl
  · rw [if_neg (fun h => hT h.2 : ¬ (0 < max x y ∧ b.ground.Tg < b.Tmax)),
      if_neg (fun h => hT h.2 : ¬ (0 < x ∧ b.ground.Tg < b.Tmax)),
      if_neg (fun h => hT h.2 : ¬ (0 < y ∧ b.ground.Tg < b.Tmax))]
    rfl

/-- A heating quadrant over the union of two month windows behaves as the
skip-aware maximum of the two windows' heating quadrants. -/
theorem heatDepth_min (b : Borefield) (x y : ℚ) :
    heatDepth b (min x y) = omax (heatDepth b x) (heatDepth b y) := by
  simp only [heatDepth]
  by_cases hT : b.Tmin < b.ground.Tg
  · by_cases hx : x < 0 <;> by_cases hy : y < 0
    · rw [if_pos (⟨min_lt_iff.mpr (Or.inl hx), hT⟩ :
          min x y < 0 ∧ b.Tmin < b.ground.Tg),
        if_pos (⟨hx, hT⟩ : x < 0 ∧ b.Tmin < b.ground.Tg),
        if_pos (⟨hy, hT⟩ : y < 0 ∧ b.Tmin < b.ground.Tg)]
      exact congrArg some
        (max_div_div_right_of_nonpos (sub_neg.mpr hT).le x y).symm
    · rw [if_pos (⟨min_lt_iff.mpr (Or.inl hx), hT⟩ :
          min x y < 0 ∧ b.Tmin < b.ground.Tg),
        if_pos (⟨hx, hT⟩ : x < 0 ∧ b.Tmin < b.ground.Tg),
        if_neg (fun h => hy h.1 : ¬ (y < 0 ∧ b.Tmin < b.ground.Tg))]
      show some (min x y / _) = some (x / _)
      rw [min_eq_left (hx.le.trans (not_lt.mp hy))]
    · rw [if_pos (⟨min_lt_iff.mpr (Or.inr hy), hT⟩ :
          min x y < 0 ∧ b.Tmin < b.ground.Tg),
        if_neg (fun h => hx h.1 : ¬ (x < 0 ∧ b.Tmin < b.ground.Tg)),
        if_pos (⟨hy, hT⟩ : y < 0 ∧ b.Tmin < b.ground.Tg)]
      show some (min x y / _) = some (y / _)
      rw [min_eq_right (hy.le.trans (not_lt.mp hx))]
    · rw [if_neg (fun h => (min_lt_iff.mp h.1).elim hx hy :
          ¬ (min x y < 0 ∧ b.Tmin < b.ground.Tg)),
        if_neg (fun h => hx h.1 : ¬ (x < 0 ∧ b.Tmin < b.ground.Tg)),
        if_neg (fun h => hy h.1 : ¬ (y < 0 ∧ b.Tmin < b.ground.Tg))]
      rfl
  · rw [if_neg (fun h => hT h.2 : ¬ (min x y < 0 ∧ b.Tmin < b.ground.Tg)),
      if_neg (fun h => hT h.2 : ¬ (x < 0 ∧ b.Tmin < b.ground.Tg)),
      if_neg (fun h => hT h.2 : ¬ (y < 0 ∧ b.Tmin < b.ground.Tg))]
    rfl

/-- Claim C4 (amended): for every scenario whose full-horizon temperature
extrema (largest cooling numerator and smallest heating numerator) are
attained in the first or last simulated year — the situation the two-period
L2 approximation is designed for — the L2 and L3 automatic sizing results
coincide exactly (same converged depth, or the same failure), so whenever
both strategies converge the relative difference of the two depths is zero
and in particular stays within the documented 5 percent tolerance. -/
theorem c4_l2_l3_first_last (b : Borefield) (g : GFunc)
    (hCall : maxFrom (coolNum b g) 0 (12 * b.simulationPeriod - 1) =
      max (maxFrom (coolNum b g) 0 11)
        (maxFrom (coolNum b g) (12 * (b.simulationPeriod - 1)) 11))
    (hHall : minFrom (heatNum b g) 0 (12 * b.simulationPeriod - 1) =
      min (minFrom (heatNum b g) 0 11)
        (minFrom (heatNum b g) (12 * (b.simulationPeriod - 1)) 11)) :
    sizeCore b g .L2 none = sizeCore b g .L3 none ∧
    ∀ dl2 dl3, sizeCore b g .L2 none = .ok dl2 → sizeCore b g .L3 none = .ok dl3 →
      |dl3 - dl2| / dl3 ≤ 1 / 20 := by
  have c3 : quadrantDepth b g .L3 .lastHeating =
      omax (quadrantDepth b g .L2 .firstHeating) (quadrantDepth b g .L2 .lastHeating) := by
    show heatDepth b (minFrom (heatNum b g) 0 (12 * b.simulationPeriod - 1)) = _
    rw [hHall, heatDepth_min]
    rfl
  have c4 : quadrantDepth b g .L3 .lastCooling =
      omax (quadrantDepth b g .L2 .firstCooling) (quadrantDepth b g .L2 .lastCooling) := by
    show coolDepth b (maxFrom (coolNum b g) 0 (12 * b.simulationPeriod - 1)) = _
    rw [hCall, coolDepth_max]
    rfl
  have key : sizeCore b g .L2 none = sizeCore b g .L3 none := by
    rw [sizeCore_auto_eq b g .L2, sizeCore_auto_eq b g .L3,
      show quadrantDepth b g .L3 .firstHeating = quadrantDepth b g .L2 .firstHeating
        from rfl,
      show quadrantDepth b g .L3 .firstCooling = quadrantDepth b g .L2 .firstCooling
        from rfl,
      c3, c4, oShuffle]
  refine ⟨key, ?_⟩
  intro dl2 dl3 e2 e3
  rw [key] at e2
  rw [e2] at e3
  have hdd : dl2 = dl3 := Except.ok.inj e3
  rw [hdd, sub_self, abs_zero, zero_div]
  norm_num

/-- Claim C4 witness: on the shared one-year scenario first year and last year
coincide, so the extrema hypotheses hold, and L2 and L3 produce the same
(successful) result. -/
theorem c4_witness :
    sizeCore cb gS .L2 none = sizeCore cb gS .L3 none ∧
      sizeCore cb gS .L2 none = .ok (6575 / 438) :=
  ⟨(c4_l2_l3_first_last cb gS (by decide) (by decide)).1, by decide⟩

/-- If the depth/resistance loop returns, the resistance it returns is the one
the external provider computed at the penultimate depth, which is within the
convergence tolerance of the final depth. -/
theorem dynLoop_rb (b : Borefield) (g : GFunc) (s : Strategy) (q : Option Quadrant)
    (fl : FluidData) (pd : PipeData) :
    ∀ (k : ℕ) (dS d rb : ℚ), dynLoop b g s q fl pd k dS = .ok (d, rb) →
      ∃ dPrev, rb = dynamicRb fl pd dPrev ∧ |d - dPrev| ≤ convergenceTol := by
  intro k
  induction k with
  | zero => intro dS d rb h; exact Except.noConfusion h
  | succ n ih =>
      intro dS d rb h
      replace h : exceptBind (sizeCore { b with Rb := dynamicRb fl pd dS } g s q)
          (fun dNew => if |dNew - dS| ≤ convergenceTol then .ok (dNew, dynamicRb fl pd dS)
            else dynLoop b g s q fl pd n dNew) = .ok (d, rb) := h
      rcases hsc : sizeCore { b with Rb := dynamicRb fl pd dS } g s q with e | dNew
      · rw [hsc, exceptBind_error] at h; exact Except.noConfusion h
      rw [hsc, exceptBind_ok] at h
      by_cases htol : |dNew - dS| ≤ convergenceTol
      · rw [if_pos htol] at h
        have h2 := Except.ok.inj h
        have hdd : dNew = d := congrArg Prod.fst h2
        have hrb : dynamicRb fl pd dS = rb := congrArg Prod.snd h2
        exact ⟨dS, hrb.symm, hdd ▸ htol⟩
      · rw [if_neg htol] at h
        exact ih dNew d rb h

/-- Claim C10: a successful `size` call with dynamic resistance
(`use_constant_Rb = false`) leaves the aggregate with its current depth set to
the converged depth and its stored equivalent resistance overwritten by the
value the external ResistanceProvider computed during the final accepted
iteration (at a depth within the convergence tolerance of the converged one);
the original constant value is not restored, and subsequent temperature
evaluations on the aggregate read the overwritten field. -/
theorem c10_dynamic_rb_overwrite (b : Borefield) (pre : GFunc) (d0 : ℚ) (s : Strategy)
    (q : Option Quadrant) (fl : FluidData) (pd : PipeData) (d : ℚ) (b' : Borefield)
    (hf : b.fluid = some fl) (hp : b.pipe = some pd)
    (h : size b pre d0 s q false = .ok (d, b')) :
    b'.H = d ∧ ∃ dPrev, b'.Rb = dynamicRb fl pd dPrev ∧ |d - dPrev| ≤ convergenceTol := by
  rw [size] at h
  rcases hr : resolveG b pre with e | g
  · rw [hr, exceptBind_error] at h; exact Except.noConfusion h
  rw [hr, exceptBind_ok] at h
  by_cases hb : b.Tmin < b.Tmax
  swap
  · rw [if_neg hb] at h; exact Except.noConfusion h
  rw [if_pos hb, Bool.cond_false, hf, hp] at h
  dsimp only at h
  rcases hdl : dynLoop b g s q fl pd iterCap d0 with e | p
  · rw [hdl, exceptBind_error] at h; exact Except.noConfusion h
  rw [hdl, exceptBind_ok] at h
  have h2 := Except.ok.inj h
  have hd : p.1 = d := congrArg Prod.fst h2
  have hb2 : ({ b with H := p.1, Rb := p.2, fluid := some fl, pipe := some pd } :
      Borefield) = b' := congrArg Prod.snd h2
  obtain ⟨dPrev, hrb, htol⟩ :=
    dynLoop_rb b g s q fl pd iterCap d0 p.1 p.2 (by rw [hdl])
  subst hd
  constructor
  · rw [← hb2]
  · refine ⟨dPrev, ?_, htol⟩
    rw [← hb2]
    exact hrb

/-- Claim C10 witness: the shared scenario sized with dynamic resistance
converges, stores the converged depth, overwrites the stored resistance with
the provider's value at a depth within tolerance of the converged depth, and
the overwritten value differs from the original constant. -/
theorem c10_witness :
    cb.fluid = some cfl ∧ cb.pipe = some cpi ∧
    size cb gS 100 .L2 none false =
      .ok (58075567 / 6570000,
        { cb with H := 58075567 / 6570000, Rb := 3250567 / 219000000 }) ∧
    ({ cb with H := 58075567 / 6570000, Rb := 3250567 / 219000000 } : Borefield).H =
      58075567 / 6570000 ∧
    (∃ dPrev,
      ({ cb with H := 58075567 / 6570000, Rb := 3250567 / 219000000 } : Borefield).Rb =
        dynamicRb cfl cpi dPrev ∧
      |(58075567 / 6570000 : ℚ) - dPrev| ≤ convergenceTol) ∧
    ({ cb with H := 58075567 / 6570000, Rb := 3250567 / 219000000 } : Borefield).Rb ≠
      cb.Rb := by
  have hs : size cb gS 100 .L2 none false =
      .ok (58075567 / 6570000,
        { cb with H := 58075567 / 6570000, Rb := 3250567 / 219000000 }) := by decide
  have hc := c10_dynamic_rb_overwrite cb gS 100 .L2 none cfl cpi _ _ rfl rfl hs
  exact ⟨rfl, rfl, hs, hc.1, hc.2, by decide⟩

end GHEtool
